import Mathlib

/-!
Verification of the COO-Utilities/pdu driver (Eaton EMAT-08/10 PDU).

The repository has two driver variants:
* `EMAT08_10.py` — raw-TCP variant: quiet-period reply reader, lock held
  only around the socket write.
* `emat08_10.py` — Telnet (telnetlib3) variant: prompt-pattern reply
  reader, lock held around the whole write+read, per-outlet state cache
  populated by `initialize()`.

Both are shallowly embedded below: Python objects become explicit state
records, the device is a scripted stream of read outcomes, and Python
exceptions become `Except PyErr`.
-/

/-- Python exception kinds that the embedded code can raise. -/
inductive PyErr where
  | keyError
  | indexError
  | valueError
  | typeError
  | attributeError
  deriving DecidableEq, Repr

deriving instance DecidableEq for Except

/-- Python value for the optional outlet argument `n` of
`get_atomic_value` (an int, a string such as "x", or None). -/
inductive PyVal where
  | vint (i : Int)
  | vstr (s : String)
  | vnone
  deriving DecidableEq, Repr

/-- How a Python value is rendered by `str.format` substitution. -/
def pyRepr : PyVal → String
  | .vint i => toString i
  | .vstr s => s
  | .vnone => "None"

/-- Strip `pat` from the front of a character list, or fail. -/
def dropPrefixQ : List Char → List Char → Option (List Char)
  | [], l => some l
  | _ :: _, [] => none
  | p :: ps, c :: cs => if p = c then dropPrefixQ ps cs else none

/-- Character-level worker for Python `str.split(sep)` with nonempty
`sep`: scan left to right for non-overlapping occurrences.  The fuel is
bounded by the input length, so `pySplit` always supplies enough. -/
def splitOnListAux (sep : List Char) : Nat → List Char → List (List Char)
  | _, [] => [[]]
  | 0, l => [l]
  | fuel + 1, c :: cs =>
    if sep.isEmpty then [c :: cs]
    else
      match dropPrefixQ sep (c :: cs) with
      | some rest => [] :: splitOnListAux sep fuel rest
      | none =>
        match splitOnListAux sep fuel cs with
        | [] => [[c]]
        | g :: gs => (c :: g) :: gs

/-- Model of Python `s.split(sep)` for nonempty separators: always at
least one part; `"".split(sep) == [""]`. -/
def pySplit (s sep : String) : List String :=
  (splitOnListAux sep.data (s.data.length + 1) s.data).map (fun l => String.mk l)

/-- Character-level worker replacing every non-overlapping occurrence of
`pat` (nonempty) by `rep`. -/
def replaceList (pat rep : List Char) : Nat → List Char → List Char
  | _, [] => []
  | 0, l => l
  | fuel + 1, c :: cs =>
    if pat.isEmpty then c :: cs
    else
      match dropPrefixQ pat (c :: cs) with
      | some rest => rep ++ replaceList pat rep fuel rest
      | none => c :: replaceList pat rep fuel cs

/-- Model of Python `s.replace(pat, rep)` for nonempty patterns, as
`str.format` substitution of one named field behaves on the default
templates. -/
def pyReplace (s pat rep : String) : String :=
  String.mk (replaceList pat.data rep.data (s.data.length + 1) s.data)

/-- Model of Python `s.strip()`. -/
def pyTrim (s : String) : String :=
  String.mk (((s.data.dropWhile Char.isWhitespace).reverse.dropWhile
    Char.isWhitespace).reverse)

/-- Decimal value of a digit list. -/
def digitsVal (l : List Char) : Nat :=
  l.foldl (fun a c => a * 10 + (c.toNat - 48)) 0

/-- Model of Python `s.lower()` (ASCII commands only). -/
def lowerStr (s : String) : String :=
  String.mk (s.data.map Char.toLower)

/-- Model of Python `"needle" in haystack` substring containment. -/
def containsSub (needle haystack : String) : Bool :=
  (pySplit haystack needle).length != 1

/-- Model of Python `str.format(*args)` with positional arguments only
(as called by `_send_command`): `\x7b\x7d` is auto-numbered, `\x7b0\x7d` is a
positional index, a named field raises KeyError (no keyword arguments are
passed), an unmatched brace raises ValueError, an index past the end of
`args` raises IndexError.  `\x7b\x7b` and `\x7d\x7d` are literal braces.
The fuel argument is bounded by the character count, so `pyFormat` below
always supplies enough. -/
def pyFormatAux (args : List String) : Nat → Nat → List Char → Except PyErr String
  | _, _, [] => .ok ""
  | 0, _, _ => .error .valueError
  | fuel + 1, k, c :: cs =>
    if c = '\x7b' then
      match cs with
      | [] => .error .valueError
      | c2 :: cs2 =>
        if c2 = '\x7b' then
          (pyFormatAux args fuel k cs2).map (fun s => "\x7b" ++ s)
        else
          let fld := (c2 :: cs2).takeWhile (fun d => d ≠ '\x7d')
          let rest := (c2 :: cs2).dropWhile (fun d => d ≠ '\x7d')
          match rest with
          | [] => .error .valueError
          | _ :: rest2 =>
            let fs := String.mk fld
            if fs = "" then
              match args.get? k with
              | some a => (pyFormatAux args fuel (k + 1) rest2).map (fun s => a ++ s)
              | none => .error .indexError
            else if fld.all Char.isDigit then
              match args.get? (digitsVal fld) with
              | some a => (pyFormatAux args fuel k rest2).map (fun s => a ++ s)
              | none => .error .indexError
            else .error .keyError
    else if c = '\x7d' then
      match cs with
      | c2 :: cs2 =>
        if c2 = '\x7d' then (pyFormatAux args fuel k cs2).map (fun s => "\x7d" ++ s)
        else .error .valueError
      | [] => .error .valueError
    else (pyFormatAux args fuel k cs).map (fun s => String.mk [c] ++ s)

/-- Model of Python `command.format(*args)`. -/
def pyFormat (command : String) (args : List String) : Except PyErr String :=
  pyFormatAux args (command.data.length + 1) 0 command.data

/-- Model of Python `int(s)` on a string: optional sign and decimal
digits after stripping whitespace, ValueError otherwise. -/
def pyIntStr (s : String) : Except PyErr Int :=
  match (pyTrim s).data with
  | '-' :: ds =>
    if ds ≠ [] && ds.all Char.isDigit then .ok (-(digitsVal ds : Int))
    else .error .valueError
  | '+' :: ds =>
    if ds ≠ [] && ds.all Char.isDigit then .ok ((digitsVal ds : Nat) : Int)
    else .error .valueError
  | ds =>
    if ds ≠ [] && ds.all Char.isDigit then .ok ((digitsVal ds : Nat) : Int)
    else .error .valueError

/-- Model of Python `int(x)` where `x` is `str | None`: `int(None)`
raises TypeError. -/
def pyIntOf : Option String → Except PyErr Int
  | none => .error .typeError
  | some s => pyIntStr s

/-- Model of Python `[int(x) for x in xs]`, failing on the first
non-numeric entry. -/
def pyIntList : List String → Except PyErr (List Int)
  | [] => .ok []
  | s :: rest => do
    let v ← pyIntStr s
    let vs ← pyIntList rest
    .ok (v :: vs)

/-- Model of Python list item assignment `l[i] = v` for `0 ≤ i`:
IndexError when the index is out of range. -/
def pySetItem (l : List Int) (i : Int) (v : Int) : Except PyErr (List Int) :=
  if 0 ≤ i ∧ i.toNat < l.length then .ok (l.set i.toNat v)
  else .error .indexError

/-- Substitute the 1-based outlet index for the named field in a command
template, as Python `template.format(n=n)` does on the default templates
(whose only field is the name `n`). -/
def substN (template : String) (n : Int) : String :=
  pyReplace template "\x7bn\x7d" (toString n)

/-- Substitute outlet index and autostart policy for the named fields, as
Python `template.format(n=n, p=p)` does on the default template. -/
def substNP (template : String) (n p : Int) : String :=
  pyReplace (pyReplace template "\x7bn\x7d" (toString n)) "\x7bp\x7d" (toString p)

/-- Substitute an arbitrary Python value for the named field `n`, as the
eager `template.format(n=n)` calls in `get_atomic_value`'s outlet mapping
do (the value may be an int, the string "x", or None). -/
def substNVal (template : String) (n : PyVal) : String :=
  pyReplace template "\x7bn\x7d" (pyRepr n)

/-! ## Raw-TCP variant (`EMAT08_10.py`) -/

/-- One outcome of a `socket.recv` call in the TCP variant: a data chunk
tagged with the elapsed wall-clock time (against the read deadline) at
the moment the post-append check runs, a `socket.timeout` (quiet period
elapsed), or a hard `socket.error`.  A `chunk ""` is a zero-length read,
meaning the peer closed the connection. -/
inductive RecvEv where
  | chunk (s : String) (t : Nat)
  | timeoutExc
  | sockError
  deriving DecidableEq, Repr

/-- State of the raw-TCP driver (`EMAT08_10.EatonEMAT`): the connected
flag kept by the base class, the socket handle (present or None), a
fault-injection flag for `sendall`, the line terminator and read timeout
from the constructor, the scripted incoming byte stream, and the list of
writes that reached the wire. -/
structure TcpState where
  connected : Bool
  sockPresent : Bool
  sendFault : Bool
  eol : String
  timeout : Nat
  recvScript : List RecvEv
  sent : List String
  deriving DecidableEq, Repr, Inhabited

/-- Default TCP outlet-on template from `__init__`. -/
def tcp_cmd_outlet_on : String := "set PDU.OutletSystem.Outlet[\x7bn\x7d].DelayBeforeStartup 0"

/-- Default TCP outlet-off template from `__init__`. -/
def tcp_cmd_outlet_off : String := "set PDU.OutletSystem.Outlet[\x7bn\x7d].DelayBeforeShutdown 0"

/-- Default TCP outlet-status template from `__init__`. -/
def tcp_cmd_outlet_status : String :=
  "PDU.OutletSystem.Outlet[\x7bn\x7d].PresentStatus.SwitchOnOff"

/-- Default TCP device-model command from `__init__`. -/
def tcp_cmd_device_model : String := "PDU.PowerSummary.iManufacturer"

/-- Default TCP firmware-version command from `__init__`. -/
def tcp_cmd_firmware_ver : String := "PDU.PowerSummary.iVersion"

/-- `EMAT08_10.EatonEMAT._send_command`: fail when not connected or the
socket is gone; if positional args are given, try `command.format(*args)`
and on any substitution failure keep the command unchanged; append the
line terminator and send; the lock is held only around this `sendall`. -/
def tcp_send_command (st : TcpState) (command : String) (args : List String) :
    Bool × TcpState :=
  if st.connected && st.sockPresent then
    let cmd :=
      if args.isEmpty then command
      else match pyFormat command args with
        | .ok c => c
        | .error _ => command
    if st.sendFault then (false, st)
    else (true, { st with sent := st.sent ++ [cmd ++ st.eol] })
  else (false, st)

/-- The quiet-period accumulation loop of `EMAT08_10._read_reply`: recv
chunks until a `socket.timeout`, a zero-length read (peer closed), or the
total elapsed time exceeding the configured timeout; a `socket.error`
escapes to the outer handler which returns None.  An exhausted script is
a socket that never delivers again, i.e. a `socket.timeout`. -/
def tcpReadLoop (timeout : Nat) : List RecvEv → List String → Option String × List RecvEv
  | [], acc => (some (String.join acc), [])
  | .timeoutExc :: rest, acc => (some (String.join acc), rest)
  | .sockError :: rest, _acc => (none, rest)
  | .chunk s t :: rest, acc =>
    if s = "" then (some (String.join acc), rest)
    else if timeout < t then (some (String.join (acc ++ [s])), rest)
    else tcpReadLoop timeout rest (acc ++ [s])

/-- `EMAT08_10.EatonEMAT._read_reply`: None when not connected, otherwise
run the quiet-period loop; empty accumulation decodes to the empty
string. -/
def tcp_read_reply (st : TcpState) : Option String × TcpState :=
  if st.connected && st.sockPresent then
    let (r, rest) := tcpReadLoop st.timeout st.recvScript []
    (r, { st with recvScript := rest })
  else (none, st)

/-- `EMAT08_10.EatonEMAT.get_atomic_value`: map the lowercased item to a
command ("model" or "firmware"), send it, then read one reply. -/
def tcp_get_atomic_value (st : TcpState) (item : String) : Option String × TcpState :=
  let key := lowerStr item
  let cmdOpt : Option String :=
    if key = "model" then some tcp_cmd_device_model
    else if key = "firmware" then some tcp_cmd_firmware_ver
    else none
  match cmdOpt with
  | none => (none, st)
  | some cmd =>
    let (ok, st1) := tcp_send_command st cmd []
    if ok then tcp_read_reply st1 else (none, st1)

/-- `EMAT08_10.EatonEMAT.outlet_on`: reject only indices below 1, then
format the template with `n=n` and send. -/
def tcp_outlet_on (st : TcpState) (n : Int) : Bool × TcpState :=
  if n < 1 then (false, st)
  else tcp_send_command st (substN tcp_cmd_outlet_on n) []

/-! ## Telnet variant (`emat08_10.py`) -/

/-- One outcome of executing `_asend_and_read`'s read phase on the
scripted device: the raw text accumulated by `_read_until_prompt`, or a
transport fault (the telnetlib3 coroutine raised). -/
inductive ReadOut where
  | d (s : String)
  | fault
  deriving DecidableEq, Repr

/-- State of the Telnet driver (`emat08_10.EatonEMAT`): connected flag,
reader/writer handles and the background event loop (present or None),
the one-slot reply buffer, the outlet/device cache with its
`initialized` flag, line terminator, the scripted device, and the
commands that reached the wire. -/
structure TelnetState where
  connected : Bool
  readerPresent : Bool
  writerPresent : Bool
  loopPresent : Bool
  lastReply : Option String
  outlet_count : Int
  outlet_names : List String
  outlet_onoff : List Int
  manufacturer : Option String
  model : Option String
  version : Option String
  serial : Option String
  initialized : Bool
  eol : String
  script : List ReadOut
  sent : List String
  deriving DecidableEq, Repr, Inhabited

/-- Default Telnet outlet-on template from `__init__`. -/
def tel_cmd_outlet_on : String := "set PDU.OutletSystem.Outlet[\x7bn\x7d].DelayBeforeStartup 0"

/-- Default Telnet outlet-off template from `__init__`. -/
def tel_cmd_outlet_off : String := "set PDU.OutletSystem.Outlet[\x7bn\x7d].DelayBeforeShutdown 0"

/-- Default Telnet outlet-status template from `__init__`. -/
def tel_cmd_outlet_status : String :=
  "get PDU.OutletSystem.Outlet[\x7bn\x7d].PresentStatus.SwitchOnOff"

/-- Default Telnet reset-statistics template from `__init__`. -/
def tel_cmd_reset_statistics : String :=
  "set PDU.OutletSystem.Outlet[\x7bn\x7d].Statistic[5].ModuleReset 1"

/-- Default Telnet set-autostart template from `__init__`. -/
def tel_cmd_set_auto_restart : String :=
  "set PDU.OutletSystem.Outlet[\x7bn\x7d].AutomaticRestart \x7bp\x7d"

/-- The keys of `get_atomic_value`'s device mapping. -/
def deviceKeys : List String :=
  ["manufacturer", "model", "version", "serial", "outlet_count"]

/-- The `get_atomic_value` device mapping (command per lowercased key). -/
def deviceCmd : String → Option String
  | "manufacturer" => some "get PDU.PowerSummary.iManufacturer"
  | "model" => some "get PDU.PowerSummary.iPartNumber"
  | "version" => some "get PDU.PowerSummary.iVersion"
  | "serial" => some "get PDU.PowerSummary.iSerialNumber"
  | "outlet_count" => some "get PDU.OutletSystem.Outlet.Count"
  | _ => none

/-- The keys of `get_atomic_value`'s outlet mapping. -/
def outletKeys : List String :=
  ["status", "overcurrent_status", "current", "energy", "apparent_power",
   "active_power", "reactive_power", "config_current", "type", "peak_factor",
   "phase_id", "pole_id", "power_factor", "switchable", "designator", "name",
   "outlet_id", "reset_time", "reset_energy", "auto_restart"]

/-- The `get_atomic_value` outlet mapping: each template already has the
outlet argument formatted in eagerly (`.format(n=n)` at dict build). -/
def outletCmd (item : String) (n : PyVal) : Option String :=
  match item with
  | "status" => some (substNVal tel_cmd_outlet_status n)
  | "overcurrent_status" =>
    some (substNVal "get PDU.OutletSystem.Outlet[\x7bn\x7d].PresentStatus.OverCurrent" n)
  | "current" => some (substNVal "get PDU.OutletSystem.Outlet[\x7bn\x7d].Current" n)
  | "energy" =>
    some (substNVal "get PDU.OutletSystem.Outlet[\x7bn\x7d].Statistic[5].Energy" n)
  | "apparent_power" =>
    some (substNVal "get PDU.OutletSystem.Outlet[\x7bn\x7d].ApparentPower" n)
  | "active_power" =>
    some (substNVal "get PDU.OutletSystem.Outlet[\x7bn\x7d].ActivePower" n)
  | "reactive_power" =>
    some (substNVal "get PDU.OutletSystem.Outlet[\x7bn\x7d].ReactivePower" n)
  | "config_current" =>
    some (substNVal "get PDU.OutletSystem.Outlet[\x7bn\x7d].ConfigCurrent" n)
  | "type" => some (substNVal "get PDU.OutletSystem.Outlet[\x7bn\x7d].Type" n)
  | "peak_factor" => some (substNVal "get PDU.OutletSystem.Outlet[\x7bn\x7d].PeakFactor" n)
  | "phase_id" => some (substNVal "get PDU.OutletSystem.Outlet[\x7bn\x7d].PhaseID" n)
  | "pole_id" => some (substNVal "get PDU.OutletSystem.Outlet[\x7bn\x7d].PoleID" n)
  | "power_factor" =>
    some (substNVal "get PDU.OutletSystem.Outlet[\x7bn\x7d].PowerFactor" n)
  | "switchable" => some (substNVal "get PDU.OutletSystem.Outlet[\x7bn\x7d].Switchable" n)
  | "designator" => some (substNVal "get PDU.OutletSystem.Outlet[\x7bn\x7d].iDesignator" n)
  | "name" => some (substNVal "get PDU.OutletSystem.Outlet[\x7bn\x7d].iName" n)
  | "outlet_id" => some (substNVal "get PDU.OutletSystem.Outlet[\x7bn\x7d].OutletID" n)
  | "reset_time" =>
    some (substNVal "get PDU.OutletSystem.Outlet[\x7bn\x7d].Statistic[5].Reset.Time" n)
  | "reset_energy" =>
    some (substNVal "get PDU.OutletSystem.Outlet[\x7bn\x7d].Statistic[5].Reset.Energy" n)
  | "auto_restart" =>
    some (substNVal "get PDU.OutletSystem.Outlet[\x7bn\x7d].AutomaticRestart" n)
  | _ => none

/-- The reply post-processing of `_asend_and_read`:
`data.split(eol)[-2].split('\r')[0]`.  Python raises IndexError when the
split yields fewer than two parts (in particular on an empty
accumulation). -/
def asendExtract (eol : String) (data : String) : Except PyErr String :=
  let parts := pySplit data eol
  if 2 ≤ parts.length then
    .ok (((pySplit (parts.getD (parts.length - 2) "") "\r").headD ""))
  else .error .indexError

/-- `emat08_10.EatonEMAT._send_command`: fail when not connected or the
writer is gone; with positional args, try `command.format(*args)` and on
failure keep the command unchanged; under the lock, write command+EOL,
read until the prompt (next script entry; an exhausted script is a
device that stays silent, i.e. an empty accumulation), post-process with
`asendExtract`, and buffer the reply.  Any exception (transport fault or
IndexError) clears the buffer and yields False. -/
def telnet_send_command (st : TelnetState) (command : String) (args : List String) :
    Bool × TelnetState :=
  if st.connected && st.writerPresent then
    let cmd :=
      if args.isEmpty then command
      else match pyFormat command args with
        | .ok c => c
        | .error _ => command
    let out := st.script.headD (.d "")
    let rest := st.script.tail
    let res : Option String :=
      match out with
      | .fault => none
      | .d data =>
        match asendExtract st.eol data with
        | .ok r => some r
        | .error _ => none
    (res.isSome,
     { st with sent := st.sent ++ [cmd ++ st.eol], script := rest, lastReply := res })
  else (false, st)

/-- `emat08_10.EatonEMAT._read_reply`: None when not connected, else the
buffered reply, with an empty buffer reading as "". -/
def telnet_read_reply (st : TelnetState) : Option String :=
  if st.connected then some (st.lastReply.getD "") else none

/-- The send-then-read tail shared by the public getters: `None` when
`_send_command` failed, otherwise `_read_reply()`. -/
def sendAndRead (st : TelnetState) (cmd : String) : Option String × TelnetState :=
  let p := telnet_send_command st cmd []
  if p.1 then (telnet_read_reply p.2, p.2) else (none, p.2)

/-- `emat08_10.EatonEMAT.get_atomic_value`: help items short-circuit;
unknown items fail; device items send with no outlet guard; outlet items
with an integer index require `initialized` and a 1-based index within
`outlet_count`, while a string index must be "x" (and `None` is not
checked at all); then send and read. -/
def telnet_get_atomic_value (st : TelnetState) (item : String) (n : PyVal) :
    Option String × TelnetState :=
  if containsSub "help" item then (none, st)
  else if ¬ (outletKeys.contains item) && ¬ (deviceKeys.contains item) then (none, st)
  else if deviceKeys.contains item then
    match deviceCmd (lowerStr item) with
    | none => (none, st)
    | some cmd => sendAndRead st cmd
  else
    let guardOk : Bool :=
      match n with
      | .vint i => st.initialized && decide (1 ≤ i) && decide (i ≤ st.outlet_count)
      | .vstr s => s == "x"
      | .vnone => true
    if guardOk then
      match outletCmd (lowerStr item) n with
      | none => (none, st)
      | some cmd => sendAndRead st cmd
    else (none, st)

/-- `emat08_10.EatonEMAT.outlet_on`: requires `initialized` and a 1-based
index within `outlet_count` before any I/O; on a successful send,
optimistically writes 1 into the cache slot (Python list assignment,
which raises IndexError out of range). -/
def telnet_outlet_on (st : TelnetState) (n : Int) : Except PyErr (Bool × TelnetState) :=
  if ¬ st.initialized then .ok (false, st)
  else if n < 1 ∨ st.outlet_count < n then .ok (false, st)
  else
    let p := telnet_send_command st (substN tel_cmd_outlet_on n) []
    if p.1 then
      match pySetItem p.2.outlet_onoff (n - 1) 1 with
      | .ok l => .ok (true, { p.2 with outlet_onoff := l })
      | .error e => .error e
    else .ok (false, p.2)

/-- `emat08_10.EatonEMAT.outlet_off`: as `outlet_on` with 0 written into
the cache slot. -/
def telnet_outlet_off (st : TelnetState) (n : Int) : Except PyErr (Bool × TelnetState) :=
  if ¬ st.initialized then .ok (false, st)
  else if n < 1 ∨ st.outlet_count < n then .ok (false, st)
  else
    let p := telnet_send_command st (substN tel_cmd_outlet_off n) []
    if p.1 then
      match pySetItem p.2.outlet_onoff (n - 1) 0 with
      | .ok l => .ok (true, { p.2 with outlet_onoff := l })
      | .error e => .error e
    else .ok (false, p.2)

/-- `emat08_10.EatonEMAT.outlet_status`: same preconditions, then send
the status query and read the buffered reply. -/
def telnet_outlet_status (st : TelnetState) (n : Int) : Option String × TelnetState :=
  if ¬ st.initialized then (none, st)
  else if n < 1 ∨ st.outlet_count < n then (none, st)
  else sendAndRead st (substN tel_cmd_outlet_status n)

/-- `emat08_10.EatonEMAT.reset_statistics`: same preconditions, then
send the reset command. -/
def telnet_reset_statistics (st : TelnetState) (n : Int) : Bool × TelnetState :=
  if ¬ st.initialized then (false, st)
  else if n < 1 ∨ st.outlet_count < n then (false, st)
  else telnet_send_command st (substN tel_cmd_reset_statistics n) []

/-- `emat08_10.EatonEMAT.set_autostart`: same preconditions plus the
policy range 0..2, then send. -/
def telnet_set_autostart (st : TelnetState) (n : Int) (p : Int) : Bool × TelnetState :=
  if ¬ st.initialized then (false, st)
  else if n < 1 ∨ st.outlet_count < n then (false, st)
  else if p < 0 ∨ 2 < p then (false, st)
  else telnet_send_command st (substNP tel_cmd_set_auto_restart n p) []

/-- `emat08_10.EatonEMAT.disconnect`: best-effort polite "exit" write
when a writer exists, then unconditionally drop reader, writer, reply
buffer, connected flag, and the background loop.  The outlet cache and
`initialized` flag are whatever this leaves them. -/
def telnet_disconnect (st : TelnetState) : TelnetState :=
  let sent1 := if st.writerPresent then st.sent ++ ["exit" ++ st.eol] else st.sent
  { st with
    sent := sent1
    readerPresent := false
    writerPresent := false
    lastReply := none
    connected := false
    loopPresent := false }

/-- `emat08_10.EatonEMAT.initialize`: query outlet count (through
Python `int(...)`, which raises TypeError on a None reply), the four
identity fields, then the names and statuses of all outlets ("x"),
appending each parsed entry to the cache lists, and finally set the
`initialized` flag. -/
def initializeDev (st : TelnetState) : Except PyErr (Bool × TelnetState) :=
  if ¬ st.connected then .ok (false, st)
  else
    let p1 := telnet_get_atomic_value st "outlet_count" .vnone
    match pyIntOf p1.1 with
    | .error e => .error e
    | .ok c =>
      let s2 := { p1.2 with outlet_count := c }
      let p2 := telnet_get_atomic_value s2 "manufacturer" .vnone
      let s3 := { p2.2 with manufacturer := p2.1 }
      let p3 := telnet_get_atomic_value s3 "model" .vnone
      let s4 := { p3.2 with model := p3.1 }
      let p4 := telnet_get_atomic_value s4 "version" .vnone
      let s5 := { p4.2 with version := p4.1 }
      let p5 := telnet_get_atomic_value s5 "serial" .vnone
      let s6 := { p5.2 with serial := p5.1 }
      let p6 := telnet_get_atomic_value s6 "name" (.vstr "x")
      match p6.1 with
      | none => .error .attributeError
      | some names =>
        let s7 := { p6.2 with outlet_names := p6.2.outlet_names ++ pySplit names "|" }
        let p7 := telnet_get_atomic_value s7 "status" (.vstr "x")
        match p7.1 with
        | none => .error .attributeError
        | some statuses =>
          match pyIntList (pySplit statuses "|") with
          | .error e => .error e
          | .ok vals =>
            .ok (true,
              { p7.2 with
                outlet_onoff := p7.2.outlet_onoff ++ vals
                initialized := true })

/-! ## Interleaving model for the command-execution critical section

A command execution is modelled as the sequence of shared-resource
actions a thread performs on the shared `lock` and transport.  In the
Telnet variant, `_send_command` holds the lock across write and read
(`with self.lock: reply = self._run(self._asend_and_read(command))`).
In the TCP variant, `_send_command` holds the lock only around
`sendall`, and the reply is read by a separate, unlocked `_read_reply`
call.  A schedule is any merge of the two threads' action sequences in
which lock acquisitions respect mutual exclusion. -/

/-- One shared-resource action of a command execution. -/
inductive LkOp where
  | lk
  | unlk
  | write
  | read
  deriving DecidableEq, Repr

/-- An action tagged with the thread (True or False) performing it. -/
abbrev Act := Bool × LkOp

/-- Action sequence of one command execution in the TCP variant:
`_send_command` (lock around the write only) then an unlocked
`_read_reply`. -/
def tcpProg (t : Bool) : List Act :=
  [(t, .lk), (t, .write), (t, .unlk), (t, .read)]

/-- Action sequence of one command execution in the Telnet variant: the
lock spans the write and the read. -/
def telProg (t : Bool) : List Act :=
  [(t, .lk), (t, .write), (t, .read), (t, .unlk)]

/-- Worker for `interleavings`; the fuel is bounded by the combined
length, so the wrapper always supplies enough. -/
def interleavingsAux : Nat → List Act → List Act → List (List Act)
  | _, [], ys => [ys]
  | _, x :: xs, [] => [x :: xs]
  | 0, xs, ys => [xs ++ ys]
  | fuel + 1, x :: xs, y :: ys =>
    (interleavingsAux fuel xs (y :: ys)).map (fun tr => x :: tr) ++
      (interleavingsAux fuel (x :: xs) ys).map (fun tr => y :: tr)

/-- All merges of two action sequences that preserve each thread's
program order. -/
def interleavings (xs ys : List Act) : List (List Act) :=
  interleavingsAux (xs.length + ys.length) xs ys

/-- Mutual-exclusion check over a schedule: the lock is acquired only
when free and released only by its holder. -/
def lockValidAux : Option Bool → List Act → Bool
  | _, [] => true
  | owner, (t, .lk) :: rest => owner.isNone && lockValidAux (some t) rest
  | owner, (t, .unlk) :: rest => (owner == some t) && lockValidAux none rest
  | owner, (_, .write) :: rest => lockValidAux owner rest
  | owner, (_, .read) :: rest => lockValidAux owner rest

/-- A schedule is valid when its lock usage respects mutual exclusion
starting from a free lock. -/
def lockValid (tr : List Act) : Bool :=
  lockValidAux none tr

/-- Does a read by the other thread occur somewhere in the list before a
read by thread `t`? -/
def readPairAfter (t : Bool) : List Act → Bool
  | [] => false
  | a :: rest => (a == (!t, .read) && rest.contains (t, .read)) || readPairAfter t rest

/-- Does some thread's write get separated from that thread's read by the
other thread's read?  This is the interleaving the exclusivity claim
rules out. -/
def hasInterleavedRead : List Act → Bool
  | [] => false
  | (t, .write) :: rest => readPairAfter t rest || hasInterleavedRead rest
  | _ :: rest => hasInterleavedRead rest

/-! ## Deadline-bounded reader models (unbounded event streams)

For termination, the readers are run against an infinite stream of
events with explicit fuel; returning `some` means the loop halted by
itself within that many iterations. -/

/-- The quiet-period loop of `EMAT08_10._read_reply` over an event
stream: identical branching to `tcpReadLoop`, reading stream position
`i`, with fuel counting loop iterations. -/
def tcpReadAux (timeout : Nat) (f : Nat → RecvEv) :
    Nat → Nat → List String → Option (Option String)
  | 0, _, _ => none
  | fuel + 1, i, acc =>
    match f i with
    | .sockError => some none
    | .timeoutExc => some (some (String.join acc))
    | .chunk s t =>
      if s = "" then some (some (String.join acc))
      else if timeout < t then some (some (String.join (acc ++ [s])))
      else tcpReadAux timeout f fuel (i + 1) (acc ++ [s])

/-- An event at which the quiet-period loop necessarily stops: the quiet
period elapsed, a transport fault, the peer closed, or a chunk whose
post-append elapsed-time check exceeds the timeout. -/
def tcpStopEv (timeout : Nat) : RecvEv → Bool
  | .sockError => true
  | .timeoutExc => true
  | .chunk s t => s == "" || decide (timeout < t)

/-- The `_read_until_prompt` loop of the Telnet variant over an event
stream: iteration `i` observes wall-clock time `times i` at the `while`
check and then reads chunk `chunks i` (the empty chunk standing for an
`asyncio.TimeoutError` on this round); the loop exits at the deadline,
or when a nonempty chunk makes the accumulated text match the prompt
pattern. -/
def telnetReadAux (deadline : Nat) (times : Nat → Nat) (chunks : Nat → String)
    (promptMatch : String → Bool) : Nat → Nat → String → Option String
  | 0, _, _ => none
  | fuel + 1, i, buff =>
    if deadline ≤ times i then some buff
    else
      let c := chunks i
      if c ≠ "" && promptMatch (buff ++ c) then some (buff ++ c)
      else telnetReadAux deadline times chunks promptMatch fuel (i + 1) (buff ++ c)

/-! ## Prompt-line definitions for the reply-extraction claim -/

/-- Does the Telnet prompt pattern `[>#]\s*$` match within a single
line: after discarding trailing whitespace the line ends in a prompt
character. -/
def isPromptLine (l : String) : Bool :=
  match l.data.reverse.dropWhile Char.isWhitespace with
  | [] => false
  | c :: _ => c == '>' || c == '#'

/-- Index of the first prompt-matching line of a reply, if any. -/
def findPromptIdx : List String → Option Nat
  | [] => none
  | l :: ls =>
    if isPromptLine l then some 0
    else (findPromptIdx ls).map (fun i => i + 1)

/-- Modelled from the spec: "the reply text ... equals the line
immediately preceding the matched prompt line of the accumulated text,
with the prompt line itself stripped".  The accumulated text is split
into lines at the line terminator, the matched prompt line is located,
and the line immediately before it is the reply; absent when no line
matches or nothing precedes the match. -/
def spec_reply_extract (eol : String) (data : String) : Option String :=
  let lines := pySplit data eol
  match findPromptIdx lines with
  | some i => if 1 ≤ i then lines.get? (i - 1) else none
  | none => none

/-! ## Concrete states used by witnesses and counterexamples -/

/-- A freshly connected TCP driver whose peer stays silent (the first
recv times out), used by several concrete scenarios. -/
def tcpQuiet : TcpState :=
  { connected := true, sockPresent := true, sendFault := false, eol := "\r\n",
    timeout := 3, recvScript := [.timeoutExc], sent := [] }

/-- A freshly connected, not-yet-initialized Telnet driver with a device
script, used by several concrete scenarios. -/
def telConn (script : List ReadOut) : TelnetState :=
  { connected := true, readerPresent := true, writerPresent := true, loopPresent := true,
    lastReply := none, outlet_count := 0, outlet_names := [], outlet_onoff := [],
    manufacturer := none, model := none, version := none, serial := none,
    initialized := false, eol := "\r\n", script := script, sent := [] }

/-! ## C1 — lock scope of command execution -/

/-- **C1** (amended).  In the Telnet variant the lock spans the write
and the read, so in every mutual-exclusion-respecting interleaving of
two concurrent command executions on the same driver, neither
execution's transport read falls between the other execution's write
and read.  (The original claim extended this to the raw-TCP variant, in
which the lock covers only the write and `_read_reply` runs unlocked;
`c1_tcp_interleaving_cex` refutes that half.) -/
theorem c1_telnet_lock_spans_write_read :
    ∀ tr ∈ interleavings (telProg true) (telProg false),
      lockValid tr = true → hasInterleavedRead tr = false := by
  decide

/-- Witness for C1: the fully serial schedule is a valid interleaving,
and the theorem yields that it has no interleaved read. -/
theorem c1_witness :
    hasInterleavedRead (telProg true ++ telProg false) = false :=
  c1_telnet_lock_spans_write_read (telProg true ++ telProg false) (by decide) (by decide)

/-- Counterexample for C1 as stated: in the raw-TCP variant, the
schedule in which thread `true` writes (under the lock), thread `false`
then runs its whole locked write plus its unlocked read, and thread
`true` only then reads, respects the lock discipline yet interleaves
`false`'s read between `true`'s write and read. -/
theorem c1_tcp_interleaving_cex :
    [((true : Bool), LkOp.lk), (true, .write), (true, .unlk), (false, .lk),
     (false, .write), (false, .unlk), (false, .read), (true, .read)] ∈
      interleavings (tcpProg true) (tcpProg false) ∧
    lockValid
      [((true : Bool), LkOp.lk), (true, .write), (true, .unlk), (false, .lk),
       (false, .write), (false, .unlk), (false, .read), (true, .read)] = true ∧
    hasInterleavedRead
      [((true : Bool), LkOp.lk), (true, .write), (true, .unlk), (false, .lk),
       (false, .write), (false, .unlk), (false, .read), (true, .read)] = true := by
  decide

/-! ## C4 — outlet index range validation -/

/-- **C4** (amended).  In the Telnet variant, `outlet_on(0)` and
`outlet_on(outlet_count+1)` both return False and leave the state (in
particular the list of transport writes) untouched, for every state:
whether or not the driver is initialized, validation rejects the call
before any I/O.  (The original claim extended this to the raw-TCP
variant, which validates only the lower bound; see
`c4_tcp_no_upper_bound_cex`.) -/
theorem c4_telnet_range_validation :
    ∀ st : TelnetState,
      telnet_outlet_on st 0 = .ok (false, st) ∧
      telnet_outlet_on st (st.outlet_count + 1) = .ok (false, st) := by
  intro st
  constructor
  · unfold telnet_outlet_on
    by_cases h : st.initialized
    · rw [if_neg (by simp [h]), if_pos (Or.inl (by norm_num))]
    · rw [if_pos (by simp [h])]
  · unfold telnet_outlet_on
    by_cases h : st.initialized
    · rw [if_neg (by simp [h]), if_pos (Or.inr (lt_add_one _))]
    · rw [if_pos (by simp [h])]

/-- Counterexample for C4 as stated: the raw-TCP variant has no
`outlet_count` and no upper bound; with an 8/10-outlet device, a
connected driver accepts `outlet_on(11)`, formats the command and
writes it to the transport, returning True. -/
theorem c4_tcp_no_upper_bound_cex :
    (tcp_outlet_on tcpQuiet 11).1 = true ∧
    (tcp_outlet_on tcpQuiet 11).2.sent =
      ["set PDU.OutletSystem.Outlet[11].DelayBeforeStartup 0\r\n"] := by
  decide

/-! ## C5 — no exception-based control flow: `initialize()` -/

/-- **C5** (code bug).  The claim (and spec §7) says `initialize()`
returns False rather than throwing when a device query yields no reply.
On a connected Telnet session whose device sends no bytes for the
outlet-count query, `get_atomic_value("outlet_count")` returns None
(the reply post-processing raises IndexError on the empty accumulation,
so `_send_command` reports failure), and `int(None)` on line 531 of
`emat08_10.py` then raises TypeError, which nothing catches: the public
operation raises instead of returning False. -/
theorem c5_initialize_raises_typeerror :
    initializeDev (telConn [.d ""]) = .error .typeError := by
  decide

/-! ## C6 — state cleared by `disconnect` -/

/-- **C6** (amended).  `disconnect()` in the Telnet variant clears the
transport handles (reader and writer), the buffered reply, the
connected flag and the background loop — but it does not touch the
cached outlet state: `outlet_count`, `outlet_names`, `outlet_onoff`,
and the `initialized` flag all survive, so cached outlet data is
carried across a reconnect.  (The original claim said the cache is
invalidated; see `c6_cache_survives_disconnect_cex`.) -/
theorem c6_disconnect_clears_session_not_cache :
    ∀ st : TelnetState,
      (telnet_disconnect st).readerPresent = false ∧
      (telnet_disconnect st).writerPresent = false ∧
      (telnet_disconnect st).lastReply = none ∧
      (telnet_disconnect st).connected = false ∧
      (telnet_disconnect st).loopPresent = false ∧
      (telnet_disconnect st).outlet_count = st.outlet_count ∧
      (telnet_disconnect st).outlet_names = st.outlet_names ∧
      (telnet_disconnect st).outlet_onoff = st.outlet_onoff ∧
      (telnet_disconnect st).initialized = st.initialized := by
  intro st
  unfold telnet_disconnect
  refine ⟨rfl, rfl, rfl, rfl, rfl, rfl, rfl, rfl, rfl⟩

/-- Counterexample for C6 as stated: an initialized driver with a
nonempty outlet cache keeps its cache (names, on/off values, count and
the `initialized` flag) after `disconnect()` — the cached outlet data
is not invalidated. -/
theorem c6_cache_survives_disconnect_cex :
    (telnet_disconnect
      { telConn [] with
        initialized := true, outlet_count := 2,
        outlet_names := ["A", "B"], outlet_onoff := [1, 0] }).initialized = true ∧
    (telnet_disconnect
      { telConn [] with
        initialized := true, outlet_count := 2,
        outlet_names := ["A", "B"], outlet_onoff := [1, 0] }).outlet_names = ["A", "B"] ∧
    (telnet_disconnect
      { telConn [] with
        initialized := true, outlet_count := 2,
        outlet_names := ["A", "B"], outlet_onoff := [1, 0] }).outlet_onoff = [1, 0] := by
  decide

/-! ## C9 — leniency on template-substitution failure -/

/-- **C9** (confirmed).  In both variants, when `_send_command` is
called with positional args and substituting them into the template
fails, the command written on the wire is the template literally
unmodified plus the line terminator, and the call proceeds (the TCP
variant reports success; the Telnet variant still performs its
write+read cycle). -/
theorem c9_format_failure_sends_template_literally :
    ∀ (stT : TcpState) (stN : TelnetState) (template : String) (args : List String)
      (e : PyErr),
      stT.connected = true → stT.sockPresent = true → stT.sendFault = false →
      stN.connected = true → stN.writerPresent = true →
      args ≠ [] → pyFormat template args = .error e →
      (tcp_send_command stT template args).1 = true ∧
      (tcp_send_command stT template args).2.sent = stT.sent ++ [template ++ stT.eol] ∧
      (telnet_send_command stN template args).2.sent =
        stN.sent ++ [template ++ stN.eol] := by
  intro stT stN template args e hc hs hf hcn hw hargs hfmt
  refine ⟨?_, ?_, ?_⟩
  · simp [tcp_send_command, hc, hs, hf, List.isEmpty_iff, hargs, hfmt]
  · simp [tcp_send_command, hc, hs, hf, List.isEmpty_iff, hargs, hfmt]
  · simp [telnet_send_command, hcn, hw, List.isEmpty_iff, hargs, hfmt]

/-- Witness for C9: the default outlet-on template has the named field
`n`, so positional substitution with `["3"]` raises KeyError, and the
theorem applies at a concrete connected state of each variant. -/
theorem c9_witness :
    (tcp_send_command tcpQuiet tcp_cmd_outlet_on ["3"]).1 = true ∧
    (tcp_send_command tcpQuiet tcp_cmd_outlet_on ["3"]).2.sent =
      tcpQuiet.sent ++ [tcp_cmd_outlet_on ++ tcpQuiet.eol] ∧
    (telnet_send_command (telConn [.d "ok\r\n> "]) tcp_cmd_outlet_on ["3"]).2.sent =
      (telConn [.d "ok\r\n> "]).sent ++ [tcp_cmd_outlet_on ++ (telConn [.d "ok\r\n> "]).eol] :=
  c9_format_failure_sends_template_literally tcpQuiet (telConn [.d "ok\r\n> "])
    tcp_cmd_outlet_on ["3"] .keyError rfl rfl rfl rfl rfl (by decide) (by decide)

/-! ## C2 — quiet device yields an empty-string reply, not an error -/

/-- The quiet-period loop reports a read error only when the script
actually contains a transport fault. -/
theorem tcpReadLoop_none_mem :
    ∀ (script : List RecvEv) (timeout : Nat) (acc : List String),
      (tcpReadLoop timeout script acc).1 = none → RecvEv.sockError ∈ script := by
  intro script
  induction script with
  | nil => intro timeout acc h; simp [tcpReadLoop] at h
  | cons ev rest ih =>
    intro timeout acc h
    cases ev with
    | sockError => exact List.mem_cons_self _ _
    | timeoutExc => simp [tcpReadLoop] at h
    | chunk s t =>
      by_cases hs : s = ""
      · simp [tcpReadLoop, hs] at h
      · by_cases ht : timeout < t
        · simp [tcpReadLoop, hs, ht] at h
        · have := ih timeout (acc ++ [s]) (by simpa [tcpReadLoop, hs, ht] using h)
          exact List.mem_cons_of_mem _ this

/-- **C2** (amended).  In the raw-TCP variant: a connected session whose
peer sends no bytes before the read deadline (the first recv times out,
or the preloaded script is exhausted) answers
`get_atomic_value("model")` with the empty string, not an error; and
`_read_reply` returns the None error marker only when the script holds
an actual transport fault.  (The original claim extended the
empty-string behaviour to the Telnet variant, where the reply
post-processing instead faults on an empty accumulation; see
`c2_telnet_no_bytes_none_cex`.) -/
theorem c2_tcp_quiet_empty_reply :
    ∀ st : TcpState,
      st.connected = true → st.sockPresent = true → st.sendFault = false →
      ((st.recvScript = [] ∨ st.recvScript.head? = some .timeoutExc) →
        (tcp_get_atomic_value st "model").1 = some "") ∧
      ((tcp_read_reply st).1 = none → RecvEv.sockError ∈ st.recvScript) := by
  intro st hc hs hf
  constructor
  · intro hq
    have hsend : tcp_send_command st tcp_cmd_device_model [] =
        (true, { st with sent := st.sent ++ [tcp_cmd_device_model ++ st.eol] }) := by
      simp [tcp_send_command, hc, hs, hf]
    rcases hq with hq | hq
    · simp [tcp_get_atomic_value, lowerStr, hsend, tcp_read_reply, hc, hs, hq, tcpReadLoop,
        String.join]
    · match hsc : st.recvScript with
      | [] => rw [hsc] at hq; simp at hq
      | ev :: rest =>
        rw [hsc] at hq
        simp at hq
        subst hq
        simp [tcp_get_atomic_value, lowerStr, hsend, tcp_read_reply, hc, hs, hsc, tcpReadLoop,
          String.join]
  · intro h
    rw [tcp_read_reply] at h
    rw [if_pos (by simp [hc, hs])] at h
    exact tcpReadLoop_none_mem st.recvScript st.timeout [] (by simpa using h)

/-- Witness for C2: the concrete quiet TCP session returns the empty
string for the model query. -/
theorem c2_witness :
    (tcp_get_atomic_value tcpQuiet "model").1 = some "" :=
  ((c2_tcp_quiet_empty_reply tcpQuiet rfl rfl rfl).1) (Or.inr rfl)

/-- Counterexample for C2 as stated: in the Telnet variant the same
scenario (connected session, device sends no bytes, no transport fault)
yields None, not the empty string: `_read_until_prompt` returns an
empty accumulation and `data.split(eol)[-2]` raises IndexError, so
`_send_command` fails and `get_atomic_value` returns None. -/
theorem c2_telnet_no_bytes_none_cex :
    (telnet_get_atomic_value (telConn [.d ""]) "model" .vnone).1 ≠ some "" ∧
    (telnet_get_atomic_value (telConn [.d ""]) "model" .vnone).1 = none := by
  decide

/-! ## C3 — the reply readers terminate by their deadlines -/

/-- If the quiet-period loop will meet a stopping event `k` positions
ahead, it halts within `k+1` further iterations, whatever data arrives
in between. -/
theorem tcpReadAux_halts :
    ∀ (k : Nat) (timeout : Nat) (f : Nat → RecvEv) (j : Nat) (acc : List String),
      tcpStopEv timeout (f (j + k)) = true →
      (tcpReadAux timeout f (k + 1) j acc).isSome = true := by
  intro k
  induction k with
  | zero =>
    intro timeout f j acc hstop
    simp only [Nat.add_zero] at hstop
    unfold tcpReadAux
    match hev : f j with
    | .sockError => simp
    | .timeoutExc => simp
    | .chunk s t =>
      rw [hev] at hstop
      unfold tcpStopEv at hstop
      simp only [Bool.or_eq_true, beq_iff_eq, decide_eq_true_eq] at hstop
      rcases hstop with hs | ht
      · simp [hs]
      · by_cases hs : s = ""
        · simp [hs]
        · simp [hs, ht]
  | succ k ih =>
    intro timeout f j acc hstop
    unfold tcpReadAux
    match hev : f j with
    | .sockError => simp
    | .timeoutExc => simp
    | .chunk s t =>
      by_cases hs : s = ""
      · simp [hs]
      · by_cases ht : timeout < t
        · simp [hs, ht]
        · dsimp only
          rw [if_neg hs, if_neg ht]
          exact ih timeout f (j + 1) (acc ++ [s])
            (by have : j + 1 + k = j + (k + 1) := by omega
                rw [this]; exact hstop)

/-- If the wall clock reaches the deadline `k` iterations ahead, the
prompt-pattern loop halts within `k+1` further iterations, with or
without a prompt match. -/
theorem telnetReadAux_halts :
    ∀ (k deadline : Nat) (times : Nat → Nat) (chunks : Nat → String)
      (promptMatch : String → Bool) (j : Nat) (buff : String),
      deadline ≤ times (j + k) →
      (telnetReadAux deadline times chunks promptMatch (k + 1) j buff).isSome = true := by
  intro k
  induction k with
  | zero =>
    intro deadline times chunks promptMatch j buff hd
    simp only [Nat.add_zero] at hd
    unfold telnetReadAux
    rw [if_pos hd]
    simp
  | succ k ih =>
    intro deadline times chunks promptMatch j buff hd
    unfold telnetReadAux
    by_cases hj : deadline ≤ times j
    · rw [if_pos hj]; simp
    · rw [if_neg hj]
      by_cases hm : (chunks j ≠ "" && promptMatch (buff ++ chunks j)) = true
      · rw [if_pos hm]; simp
      · rw [if_neg hm]
        exact ih deadline times chunks promptMatch (j + 1) (buff ++ chunks j)
          (by have : j + 1 + k = j + (k + 1) := by omega
              rw [this]; exact hd)

/-- **C3** (confirmed).  Both reply-reading loops are deadline-bounded.
The quiet-period reader of the TCP variant halts as soon as it meets a
stopping event — a quiet period (`socket.timeout`), a transport fault,
a peer close (empty chunk), or a chunk whose post-append elapsed-time
check exceeds the configured timeout — consuming at most one event past
it; the prompt-pattern reader of the Telnet variant halts as soon as
the wall clock reaches its deadline, even when no prompt ever matches.
Neither loop can hang beyond those bounds. -/
theorem c3_readers_deadline_bounded :
    (∀ (timeout : Nat) (f : Nat → RecvEv) (k : Nat),
      tcpStopEv timeout (f k) = true →
      (tcpReadAux timeout f (k + 1) 0 []).isSome = true) ∧
    (∀ (deadline : Nat) (times : Nat → Nat) (chunks : Nat → String)
      (promptMatch : String → Bool) (k : Nat),
      deadline ≤ times k →
      (telnetReadAux deadline times chunks promptMatch (k + 1) 0 "").isSome = true) := by
  constructor
  · intro timeout f k h
    exact tcpReadAux_halts k timeout f 0 [] (by simpa using h)
  · intro deadline times chunks promptMatch k h
    exact telnetReadAux_halts k deadline times chunks promptMatch 0 "" (by simpa using h)

/-- Witness for C3: a peer that never sends (every recv times out)
makes the quiet-period loop halt in one iteration, and a clock that
advances one unit per iteration makes the prompt loop halt by iteration
five with a 5-unit deadline against an ever-silent device. -/
theorem c3_witness :
    (tcpReadAux 3 (fun _ => RecvEv.timeoutExc) 1 0 []).isSome = true ∧
    (telnetReadAux 5 (fun i => i) (fun _ => "") (fun _ => false) 6 0 "").isSome = true :=
  ⟨c3_readers_deadline_bounded.1 3 (fun _ => RecvEv.timeoutExc) 0 (by decide),
   c3_readers_deadline_bounded.2 5 (fun i => i) (fun _ => "") (fun _ => false) 5 (by decide)⟩

/-! ## C7 — outlet operations before `initialize()` -/

/-- **C7** (amended).  In the Telnet variant, every outlet-indexed
operation called with an integer outlet before a successful
`initialize()` fails with a False/None result and leaves the state —
in particular the list of transport writes — untouched: this covers
`outlet_on`, `outlet_off`, `outlet_status`, `reset_statistics`,
`set_autostart`, and `get_atomic_value` for every outlet item.  (The
original claim also covered the all-outlets argument "x", but that path
skips the `initialized` guard entirely — it must, since `initialize()`
itself queries with "x" — and does write to the transport; see
`c7_x_bypasses_init_guard_cex`.) -/
theorem c7_uninitialized_int_ops_guarded :
    ∀ (st : TelnetState) (n p : Int) (item : String),
      st.initialized = false → item ∈ outletKeys →
      telnet_outlet_on st n = .ok (false, st) ∧
      telnet_outlet_off st n = .ok (false, st) ∧
      telnet_outlet_status st n = (none, st) ∧
      telnet_reset_statistics st n = (false, st) ∧
      telnet_set_autostart st n p = (false, st) ∧
      telnet_get_atomic_value st item (.vint n) = (none, st) := by
  intro st n p item hinit hitem
  refine ⟨?_, ?_, ?_, ?_, ?_, ?_⟩
  · simp [telnet_outlet_on, hinit]
  · simp [telnet_outlet_off, hinit]
  · simp [telnet_outlet_status, hinit]
  · simp [telnet_reset_statistics, hinit]
  · simp [telnet_set_autostart, hinit]
  · simp only [outletKeys] at hitem
    fin_cases hitem <;>
      · simp only [telnet_get_atomic_value]
        rw [if_neg (by decide), if_neg (by decide), if_neg (by decide)]
        simp [hinit]

/-- Witness for C7: a concrete connected, uninitialized driver rejects
all integer-indexed operations without touching its state. -/
theorem c7_witness :
    telnet_outlet_on (telConn [.d "0\r\n> "]) 1 = .ok (false, telConn [.d "0\r\n> "]) ∧
    telnet_outlet_off (telConn [.d "0\r\n> "]) 1 = .ok (false, telConn [.d "0\r\n> "]) ∧
    telnet_outlet_status (telConn [.d "0\r\n> "]) 1 = (none, telConn [.d "0\r\n> "]) ∧
    telnet_reset_statistics (telConn [.d "0\r\n> "]) 1 = (false, telConn [.d "0\r\n> "]) ∧
    telnet_set_autostart (telConn [.d "0\r\n> "]) 1 1 = (false, telConn [.d "0\r\n> "]) ∧
    telnet_get_atomic_value (telConn [.d "0\r\n> "]) "status" (.vint 1) =
      (none, telConn [.d "0\r\n> "]) :=
  c7_uninitialized_int_ops_guarded (telConn [.d "0\r\n> "]) 1 1 "status" rfl (by decide)

/-- Counterexample for C7 as stated: with the outlet argument "x", a
connected but uninitialized driver's `get_atomic_value("status", "x")`
writes the all-outlets query to the transport and returns its reply —
the `initialized` precondition is bypassed and the write count is not
zero. -/
theorem c7_x_bypasses_init_guard_cex :
    (telConn [.d "0|1\r\n> "]).initialized = false ∧
    (telnet_get_atomic_value (telConn [.d "0|1\r\n> "]) "status" (.vstr "x")).1 =
      some "0|1" ∧
    (telnet_get_atomic_value (telConn [.d "0|1\r\n> "]) "status" (.vstr "x")).2.sent =
      ["get PDU.OutletSystem.Outlet[x].PresentStatus.SwitchOnOff\r\n"] := by
  decide

/-! ## C8 — reply extraction in the prompt-pattern variant -/

/-- Locating the first prompt line of `init ++ [lastL]` when nothing in
`init` matches and `lastL` does: it is the final position. -/
theorem findPromptIdx_append_last :
    ∀ (init : List String) (lastL : String),
      (∀ l ∈ init, isPromptLine l = false) → isPromptLine lastL = true →
      findPromptIdx (init ++ [lastL]) = some init.length := by
  intro init
  induction init with
  | nil => intro lastL _ hl; simp [findPromptIdx, hl]
  | cons a as ih =>
    intro lastL hall hl
    have ha : isPromptLine a = false := hall a (List.mem_cons_self _ _)
    have hrec := ih lastL (fun l hm => hall l (List.mem_cons_of_mem _ hm)) hl
    simp [findPromptIdx, ha, hrec]

/-- **C8** (amended).  In the Telnet variant, whenever the accumulated
text splits at the line terminator into `front ++ [payload, promptLine]`
— the matched prompt line is the final line, no earlier line matches the
prompt pattern, and the payload holds no bare carriage return — the
reply returned by `_asend_and_read` equals `payload`, which is exactly
the line immediately preceding the matched prompt line demanded by the
spec-side extraction.  (The original claim asserted this for every
accumulated reply with a line before the prompt; when text follows the
matched prompt line, the code returns the second-to-last line instead —
see `c8_trailing_prompt_cex`.) -/
theorem c8_prompt_line_extraction :
    ∀ (eol data : String) (front : List String) (payload lastL : String),
      pySplit data eol = front ++ [payload, lastL] →
      (∀ l ∈ front ++ [payload], isPromptLine l = false) →
      isPromptLine lastL = true →
      (pySplit payload "\r").headD "" = payload →
      asendExtract eol data = .ok payload ∧
      spec_reply_extract eol data = some payload := by
  intro eol data front payload lastL hsplit hfront hprompt hcr
  have hlen : (front ++ [payload, lastL]).length = front.length + 2 := by
    simp
  constructor
  · unfold asendExtract
    rw [hsplit]
    dsimp only
    rw [hlen]
    rw [if_pos (by omega)]
    have hidx : front.length + 2 - 2 = front.length := by omega
    rw [hidx]
    rw [List.getD_append_right front [payload, lastL] "" front.length (le_refl _)]
    have h0 : front.length - front.length = 0 := Nat.sub_self _
    rw [h0]
    show Except.ok ((pySplit payload "\r").headD "") = Except.ok payload
    rw [hcr]
  · unfold spec_reply_extract
    rw [hsplit]
    dsimp only
    have hfind : findPromptIdx (front ++ [payload, lastL]) = some (front.length + 1) := by
      have h1 := findPromptIdx_append_last (front ++ [payload]) lastL hfront hprompt
      have h2 : (front ++ [payload]) ++ [lastL] = front ++ [payload, lastL] := by
        simp
      have h3 : (front ++ [payload]).length = front.length + 1 := by simp
      rw [h2, h3] at h1
      exact h1
    rw [hfind]
    dsimp only
    rw [if_pos (by omega)]
    have hidx : front.length + 1 - 1 = front.length := by omega
    rw [hidx]
    rw [List.get?_append_right (le_refl _)]
    simp

/-- Witness for C8: the accumulated text "ok\r\n> " extracts the
payload line "ok". -/
theorem c8_witness :
    asendExtract "\r\n" "ok\r\n> " = .ok "ok" ∧
    spec_reply_extract "\r\n" "ok\r\n> " = some "ok" :=
  c8_prompt_line_extraction "\r\n" "ok\r\n> " [] "ok" "> " (by decide) (by decide)
    (by decide) (by decide)

/-- Counterexample for C8 as stated: when the device terminates its
prompt line with the line terminator ("payload\r\n> \r\n"), the
accumulated text has a line before the prompt and the spec-side
extraction returns "payload", but the code's `split(eol)[-2]` returns
the prompt line "> " itself. -/
theorem c8_trailing_prompt_cex :
    spec_reply_extract "\r\n" "payload\r\n> \r\n" = some "payload" ∧
    asendExtract "\r\n" "payload\r\n> \r\n" ≠ .ok "payload" ∧
    asendExtract "\r\n" "payload\r\n> \r\n" = .ok "> " := by
  decide

/-! ## C10 — repeated `initialize()` appends to the outlet cache -/

/-- `_send_command` touches only the wire log, the script and the reply
buffer: the cached outlet names survive it. -/
theorem tsc_names (st : TelnetState) (c : String) (a : List String) :
    (telnet_send_command st c a).2.outlet_names = st.outlet_names := by
  unfold telnet_send_command
  split <;> simp

/-- `_send_command` leaves the cached on/off values unchanged. -/
theorem tsc_onoff (st : TelnetState) (c : String) (a : List String) :
    (telnet_send_command st c a).2.outlet_onoff = st.outlet_onoff := by
  unfold telnet_send_command
  split <;> simp

/-- The send-then-read tail leaves the cached outlet names unchanged. -/
theorem sar_names (st : TelnetState) (cmd : String) :
    (sendAndRead st cmd).2.outlet_names = st.outlet_names := by
  unfold sendAndRead
  dsimp only
  split <;> exact tsc_names st cmd []

/-- The send-then-read tail leaves the cached on/off values unchanged. -/
theorem sar_onoff (st : TelnetState) (cmd : String) :
    (sendAndRead st cmd).2.outlet_onoff = st.outlet_onoff := by
  unfold sendAndRead
  dsimp only
  split <;> exact tsc_onoff st cmd []

/-- `get_atomic_value` leaves the cached outlet names unchanged. -/
theorem gav_names (st : TelnetState) (item : String) (n : PyVal) :
    (telnet_get_atomic_value st item n).2.outlet_names = st.outlet_names := by
  unfold telnet_get_atomic_value
  repeat' split
  all_goals first
    | rfl
    | apply sar_names
    | (dsimp only; split <;> first | rfl | apply sar_names)

/-- `get_atomic_value` leaves the cached on/off values unchanged. -/
theorem gav_onoff (st : TelnetState) (item : String) (n : PyVal) :
    (telnet_get_atomic_value st item n).2.outlet_onoff = st.outlet_onoff := by
  unfold telnet_get_atomic_value
  repeat' split
  all_goals first
    | rfl
    | apply sar_onoff
    | (dsimp only; split <;> first | rfl | apply sar_onoff)

/-- One round of device replies letting `initialize()` succeed with two
outlets named "A" and "B", statuses 1 and 0. -/
def c10Round : List ReadOut :=
  [.d "2\r\n> ", .d "Eaton\r\n> ", .d "EMAT\r\n> ", .d "1.0\r\n> ", .d "S01\r\n> ",
   .d "A|B\r\n> ", .d "1|0\r\n> "]

/-- The cache state after the first of two scripted initializations. -/
def c10After : TelnetState :=
  ((initializeDev (telConn (c10Round ++ c10Round))).toOption.map Prod.snd).getD
    (telConn [])

/-- **C10** (confirmed).  A successful `initialize()` appends the parsed
outlet names and statuses to the existing cache lists instead of
replacing them (first conjunct, for every starting state).  Concretely,
from a fresh connected driver whose device reports 2 outlets each
round: after the first initialization the cache has 2 entries and
`outlet_count = 2` (the size invariant holds), and after a second
successful initialization the name list is ["A","B","A","B"] — 4
entries per 2 outlets, so `len(outlet_onoff) == outlet_count ==
len(outlet_names)` fails after repeated initializations. -/
theorem c10_initialize_appends :
    (∀ (st st' : TelnetState), initializeDev st = .ok (true, st') →
      ∃ ns os, st'.outlet_names = st.outlet_names ++ ns ∧
        st'.outlet_onoff = st.outlet_onoff ++ os ∧
        st'.initialized = true) ∧
    ((initializeDev (telConn (c10Round ++ c10Round))).map
        (fun q => (q.2.outlet_names.length, q.2.outlet_onoff.length, q.2.outlet_count)) =
      .ok (2, 2, 2) ∧
      ((initializeDev (telConn (c10Round ++ c10Round))).bind
          (fun q => initializeDev q.2)).map
        (fun q => (q.2.outlet_names, q.2.outlet_names.length, q.2.outlet_onoff.length,
          q.2.outlet_count)) =
      .ok (["A", "B", "A", "B"], 4, 4, 2)) := by
  constructor
  · intro st st' h
    unfold initializeDev at h
    by_cases hc : st.connected = true
    · rw [if_neg (by simp [hc])] at h
      dsimp only at h
      split at h
      · simp at h
      · split at h
        · simp at h
        · next names hnames =>
          split at h
          · simp at h
          · next statuses hstat =>
            split at h
            · simp at h
            · next vals hvals =>
              simp only [Except.ok.injEq, Prod.mk.injEq] at h
              obtain ⟨-, h2⟩ := h
              subst h2
              refine ⟨pySplit names "|", vals, ?_, ?_, rfl⟩
              · simp [gav_names]
              · simp [gav_onoff]
    · rw [if_pos (by simp [hc])] at h
      simp at h
  · constructor
    · decide
    · decide

/-- Witness for C10: the append property of the theorem's first part,
instantiated at the concrete two-round scripted driver. -/
theorem c10_witness :
    ∃ ns os,
      c10After.outlet_names = (telConn (c10Round ++ c10Round)).outlet_names ++ ns ∧
      c10After.outlet_onoff = (telConn (c10Round ++ c10Round)).outlet_onoff ++ os ∧
      c10After.initialized = true :=
  c10_initialize_appends.1 (telConn (c10Round ++ c10Round)) c10After (by decide)
